import Mathlib

/-!
Verification of the update-driver `src/updater/updater.cpp` (`main`) against its
natural-language specification.

The driver is shallowly embedded as a pure function: every call to an external
collaborator (memory mapping, archive open/find/extract, the edify parser and
evaluator, the SELinux label handle) is replaced by the corresponding result
drawn from an explicit environment `Env`, and the observable behaviour of a run
is captured in `Outcome`: the exit code, whether the command pipe was opened,
the lines written to the command pipe, the diagnostic log lines, and the number
of `CloseArchive` calls.  Library functions used by the driver
(`android::base::Split`, C `sscanf` with the format `"E%d: "`) are modelled
directly at the character-list level.
-/

/-- Modelled from the spec: `otautil/error_code.h` is not under `src/`.  The
spec describes `errorCode` with a default "no error" value and a distinct
generic "script execution failure" value.  `-1` and `25` follow the AOSP
enumeration shape; the proofs only rely on the two values being distinct. -/
def kNoError : Int := -1

/-- Modelled from the spec: the generic "script execution failure" error code,
distinct from `kNoError` (see `kNoError`). -/
def kScriptExecutionFailure : Int := 25

/-- Modelled from the spec: the default "no cause" cause code, distinct from
every specific cause code. -/
def kNoCause : Int := -1

/-- Modelled from the spec: the "patch application failure" cause code, one of
the two cause codes that trigger a retry signal; distinct from `kNoCause` and
`kEioFailure`. -/
def kPatchApplicationFailure : Int := 113

/-- Modelled from the spec: the "EIO failure" cause code, the other cause code
that triggers a retry signal; distinct from `kNoCause` and
`kPatchApplicationFailure`. -/
def kEioFailure : Int := 51

/-- The fixed package path of the update script (`SCRIPT_NAME` in the source). -/
def SCRIPT_NAME : String := "META-INF/com/google/android/updater-script"

/-- The mutable evaluation context seen by the driver: the fields of the edify
`State` (constructed as `State(script, &updater_info)`) that the driver reads
or writes, plus the protocol version string stored in `updater_info`.
`State`'s constructor defaults (`errmsg` empty, `error_code = kNoError`,
`cause_code = kNoCause`, `is_retry = false`) are modelled from the spec, since
`edify/expr.h` is not under `src/`. -/
structure UState where
  script : String
  version : String
  errmsg : String
  error_code : Int
  cause_code : Int
  is_retry : Bool
deriving DecidableEq

/-- The outcome of `Evaluate(&state, root, &result)`: the returned status, the
result string, and the evaluation-context fields the evaluator may have
written (`errmsg`, `error_code`, `cause_code`).  The retry flag is consulted
by primitives, not written (spec section 6). -/
structure EvalResult where
  status : Bool
  result : String
  errmsg : String
  error_code : Int
  cause_code : Int

/-- Results of the external calls the driver makes, in program order: whether
`fdopen` yields a usable stream, whether `MapFile` succeeds, the error codes of
`OpenArchiveFromMemory`, `FindEntry` and `ExtractToMemory` (0 = success), the
parser status and error count, whether `selinux_android_file_context_handle`
yields a handle, the extracted script text, and the evaluator itself as a
function of the evaluation context passed to it. -/
structure Env where
  fdopenOk : Bool
  mapOk : Bool
  openErr : Int
  findErr : Int
  extractErr : Int
  parseError : Int
  parseErrorCount : Nat
  sehandleOk : Bool
  scriptText : String
  evaluate : UState → EvalResult

/-- Observable behaviour of one driver invocation.  `exited` carries the exit
code, whether the command pipe was opened, the lines written to the command
pipe (in order, without the trailing newline), the diagnostic log lines, and
the number of `CloseArchive` calls.  `nullPipeUB` marks the run in which
`fdopen` failed: the source never checks the result and immediately passes the
null stream to `setlinebuf`/`fprintf`, which is undefined behaviour; the
fields record what had been emitted up to that point. -/
inductive Outcome where
  | exited (code : Nat) (openedChannel : Bool) (channel : List String)
      (logs : List String) (closes : Nat)
  | nullPipeUB (channel : List String) (logs : List String) (closes : Nat)
deriving DecidableEq

/-- Command-pipe lines of an outcome. -/
def Outcome.channel : Outcome → List String
  | .exited _ _ ch _ _ => ch
  | .nullPipeUB ch _ _ => ch

/-- Diagnostic log lines of an outcome. -/
def Outcome.logs : Outcome → List String
  | .exited _ _ _ lg _ => lg
  | .nullPipeUB _ lg _ => lg

/-- Number of `CloseArchive` calls of an outcome. -/
def Outcome.closes : Outcome → Nat
  | .exited _ _ _ _ n => n
  | .nullPipeUB _ _ n => n

/-- Whether the command pipe was opened during the run. -/
def Outcome.openedChannel : Outcome → Bool
  | .exited _ o _ _ _ => o
  | .nullPipeUB _ _ _ => false

/-- Whether the run ended in a normal process exit. -/
def Outcome.isExit : Outcome → Bool
  | .exited _ _ _ _ _ => true
  | .nullPipeUB _ _ _ => false

/-- The exit code of a normally exiting run. -/
def Outcome.exitCode : Outcome → Option Nat
  | .exited c _ _ _ _ => some c
  | .nullPipeUB _ _ _ => none

/-- The six characters `scanf` whitespace directives and `%d` skip over. -/
def isScanfSpace (c : Char) : Bool :=
  c == ' ' || c == '\t' || c == '\n' || c == '\r' ||
    c == Char.ofNat 11 || c == Char.ofNat 12

/-- Longest digit prefix of a character list, with the rest. -/
def takeDigits : List Char → List Char × List Char
  | [] => ([], [])
  | c :: cs =>
    if c.isDigit then
      let p := takeDigits cs
      (c :: p.1, p.2)
    else ([], c :: cs)

/-- Value of a digit string. -/
def digitsToNat (ds : List Char) : Nat :=
  ds.foldl (fun a c => a * 10 + (c.toNat - 48)) 0

/-- Model of `sscanf(line, "E%d: ", &x) == 1`, yielding the assigned `x`.
Per C `scanf` semantics: the literal `E` must match the first character;
`%d` skips whitespace, accepts an optional sign and requires at least one
digit; the return value counts assignments, so once `%d` has assigned, the
trailing `": "` directives cannot lower the count below 1 and therefore never
affect success.  (`%d` overflow is undefined behaviour in C and is modelled
with unbounded integers; no claim involves overflow.) -/
def sscanfEd (line : String) : Option Int :=
  match line.data with
  | 'E' :: rest =>
    let r1 := rest.dropWhile isScanfSpace
    match r1 with
    | '-' :: r2 =>
      let p := takeDigits r2
      if p.1 = [] then none else some (-(digitsToNat p.1 : Int))
    | '+' :: r2 =>
      let p := takeDigits r2
      if p.1 = [] then none else some ((digitsToNat p.1 : Int))
    | r2 =>
      let p := takeDigits r2
      if p.1 = [] then none else some ((digitsToNat p.1 : Int))
  | _ => none

/-- The pattern the spec describes for error-code extraction, written from the
spec's words: `E<digits>: ` at the start of the line — the letter `E`, one or
more digits, a colon, a space.  Used only to compare the spec's pattern with
the code's actual `sscanf` behaviour. -/
def specPatternEDigits (line : String) : Option Int :=
  match line.data with
  | 'E' :: rest =>
    let p := takeDigits rest
    if p.1 = [] then none
    else
      match p.2 with
      | ':' :: ' ' :: _ => some ((digitsToNat p.1 : Int))
      | _ => none
  | _ => none

/-- The error code a single abort-message line assigns, if any: the line must
begin with `E` (the source's `!line.empty() && line[0] == 'E'` guard) and the
`sscanf` scan must succeed. -/
def lineCode (l : String) : Option Int :=
  if l.data.head? = some 'E' then sscanfEd l else none

/-- Model of `android::base::Split(s, "\n")` at the character level: split on
every newline, keeping empty pieces; always returns at least one piece. -/
def splitLines : List Char → List (List Char)
  | [] => [[]]
  | c :: cs =>
    if c = '\n' then [] :: splitLines cs
    else
      match splitLines cs with
      | l :: ls => (c :: l) :: ls
      | [] => [[c]]

/-- Model of `android::base::Split(state.errmsg, "\n")`. -/
def Split (s : String) : List String :=
  (splitLines s.data).map (fun l => String.mk l)

/-- One iteration of the error-code scan in the abort-message loop: if the
line begins with `E`, a successful `sscanf` overwrites the error code and a
failed one logs a diagnostic.  Returns the new error code and the log lines. -/
def scanLine (ec : Int) (line : String) : Int × List String :=
  if line.data.head? = some 'E' then
    match sscanfEd line with
    | some n => (n, [])
    | none => (ec, ["Failed to parse error code: [" ++ line ++ "]"])
  else (ec, [])

/-- The abort-message loop: for each line, scan for an embedded error code and
then write `ui_print <line>` to the command pipe.  Returns the final error
code, the command-pipe lines, and the log lines. -/
def processLines : Int → List String → Int × List String × List String
  | ec, [] => (ec, [], [])
  | ec, l :: ls =>
    let s := scanLine ec l
    let rest := processLines s.1 ls
    (rest.1, ("ui_print " ++ l) :: rest.2.1, s.2 ++ rest.2.2)

/-- Result of the failure-path classifier: command-pipe lines, log lines, and
the final error and cause codes. -/
structure ClassifyResult where
  channel : List String
  logs : List String
  error_code : Int
  cause_code : Int
deriving DecidableEq

/-- The first half of the failure-path block: the emission of the abort
message.  When it is empty, one generic line; otherwise the line loop
(`processLines`) preceded by the `script aborted:` log line.  Returns the
error code after line scanning, the command-pipe lines, and the log lines. -/
def abortFront (st : UState) : Int × List String × List String :=
  if st.errmsg = "" then
    (st.error_code, ["ui_print script aborted (no error message)"],
      ["script aborted (no error message)"])
  else
    let pl := processLines st.error_code (Split st.errmsg)
    (pl.1, pl.2.1, ("script aborted: " ++ st.errmsg) :: pl.2.2)

/-- The `if (state.cause_code != kNoCause)` block of the failure path: the
`log cause:` line, the `retry_update` line for the two retryable cause codes,
and the accompanying log lines. -/
def causeMsgs (cc : Int) : List String × List String :=
  if cc ≠ kNoCause then
    if cc = kPatchApplicationFailure then
      (["log cause: " ++ toString cc, "retry_update"],
        ["Patch application failed, retry update."])
    else if cc = kEioFailure then
      (["log cause: " ++ toString cc, "retry_update"],
        ["Update failed due to EIO, retry update."])
    else
      (["log cause: " ++ toString cc], ([] : List String))
  else ([], [])

/-- The failure-path block of `main` (the `if (!status)` branch up to the
archive close): emit the abort message (or the generic line when it is empty)
while scanning for an embedded error code, force a still-default error code to
`kScriptExecutionFailure`, emit `log error:`, and emit `log cause:` plus a
possible `retry_update` for the two retryable cause codes. -/
def classifier (st : UState) : ClassifyResult :=
  let front := abortFront st
  let ec2 := if front.1 = kNoError then kScriptExecutionFailure else front.1
  let causePair := causeMsgs st.cause_code
  { channel := front.2.1 ++ ("log error: " ++ toString ec2) :: causePair.1
    logs := front.2.2 ++ causePair.2
    error_code := ec2
    cause_code := st.cause_code }

/-- The evaluation context just before `Evaluate` is called: the edify `State`
constructor defaults, the version string `argv[1]`, and the retry flag set
exactly when a fifth argument equal to `"retry"` is present. -/
def initState (env : Env) (argv : List String) : UState :=
  { script := env.scriptText
    version := argv.getD 1 ""
    errmsg := ""
    error_code := kNoError
    cause_code := kNoCause
    is_retry :=
      if argv.length = 5 then
        (if argv.getD 4 "" = "retry" then true else false)
      else false }

/-- The evaluation context after `Evaluate` returns: the evaluator's writes
(`errmsg`, `error_code`, `cause_code`) merged into the pre-evaluation
context. -/
def postState (env : Env) (argv : List String) : UState :=
  { initState env argv with
      errmsg := (env.evaluate (initState env argv)).errmsg
      error_code := (env.evaluate (initState env argv)).error_code
      cause_code := (env.evaluate (initState env argv)).cause_code }

/-- The version check of `main`:
`(version[0] == '1' '2' or '3') && version[1] == '\x00'` on a C string is
"the string is exactly one character from that set" (an empty `argv[1]` has
`version[0] == '\x00'` and fails the first conjunct; a longer one fails the
second). -/
def versionOk (v : String) : Bool :=
  match v.data with
  | [c] => c == '1' || c == '2' || c == '3'
  | _ => false

/-- Shallow embedding of `main` in `src/updater/updater.cpp`.  `argv` includes
the program name, so `argv.length` is C's `argc`.  External-call results come
from `env`.  Registration calls and `setbuf`/logging setup mutate no modelled
state; `atoi(argv[2])` feeds only `fdopen`, whose result is `env.fdopenOk`.
Log-line text elides the appended external `ErrorCodeString` detail, which no
modelled behaviour depends on. -/
def updaterMain (env : Env) (argv : List String) : Outcome :=
  if argv.length ≠ 4 ∧ argv.length ≠ 5 then
    .exited 1 false [] (["unexpected number of arguments: " ++ toString argv.length]) 0
  else if versionOk (argv.getD 1 "") = false then
    .exited 2 false []
      (["wrong updater binary API; expected 1, 2, or 3; got " ++ argv.getD 1 ""]) 0
  else if env.fdopenOk = false then
    .nullPipeUB [] [] 0
  else if env.mapOk = false then
    .exited 3 true [] (["failed to map package " ++ argv.getD 3 ""]) 0
  else if env.openErr ≠ 0 then
    .exited 3 true [] (["failed to open package " ++ argv.getD 3 ""]) 1
  else if env.findErr ≠ 0 then
    .exited 4 true []
      (["failed to find " ++ SCRIPT_NAME ++ " in " ++ argv.getD 3 ""]) 1
  else if env.extractErr ≠ 0 then
    .exited 5 true [] (["failed to read script from package"]) 1
  else if env.parseError ≠ 0 ∨ 0 < env.parseErrorCount then
    .exited 6 true [] ([toString env.parseErrorCount ++ " parse errors"]) 1
  else
    let warn :=
      if env.sehandleOk = false then ["ui_print Warning: No file_contexts"] else []
    let argLogs :=
      if argv.length = 5 ∧ argv.getD 4 "" ≠ "retry" then
        ["unexpected argument: " ++ argv.getD 4 ""]
      else []
    let r := env.evaluate (initState env argv)
    if r.status = false then
      let c := classifier (postState env argv)
      .exited 7 true (warn ++ c.channel) (argLogs ++ c.logs) 1
    else
      .exited 0 true
        (warn ++ ["ui_print script succeeded: result was [" ++ r.result ++ "]"])
        argLogs 1

/-- A command-pipe line is a `ui_print` line when it carries the 9-character
`ui_print ` prefix. -/
def isUiPrintLine (m : String) : Bool :=
  m.data.take 9 == ("ui_print ").data

/-! ### General helper lemmas -/

/-- String equality is equality of the underlying character lists. -/
theorem string_data_eq {s t : String} : s = t ↔ s.data = t.data :=
  ⟨fun h => by rw [h], fun h => by cases s; cases t; exact congrArg String.mk h⟩

/-- The head of an appended string is the head of a non-empty left part. -/
theorem append_head (s t : String) (c : Char) (hs : s.data.head? = some c) :
    (s ++ t).data.head? = some c := by
  rw [String.data_append]
  rcases hl : s.data with _ | ⟨x, xs⟩
  · rw [hl] at hs; exact absurd hs (by simp)
  · rw [hl] at hs; simpa using hs

/-- Strings with different head characters are different. -/
theorem ne_of_head (s u : String) (c d : Char) (hs : s.data.head? = some c)
    (hu : u.data.head? = some d) (hcd : c ≠ d) : s ≠ u := by
  intro h
  rw [h, hu] at hs
  exact hcd (Option.some.inj hs).symm

/-- No `ui_print` line is the `retry_update` line. -/
theorem uiPrint_ne_retry (l : String) : ("ui_print " ++ l) ≠ "retry_update" :=
  ne_of_head _ _ 'u' 'r' (append_head ("ui_print ") l 'u' rfl) rfl (by decide)

/-- The `retry_update` line is not a `log error:` line. -/
theorem retry_ne_logError (s : String) : ("retry_update" : String) ≠ "log error: " ++ s :=
  ne_of_head _ _ 'r' 'l' rfl (append_head ("log error: ") s 'l' rfl) (by decide)

/-- The `retry_update` line is not a `log cause:` line. -/
theorem retry_ne_logCause (s : String) : ("retry_update" : String) ≠ "log cause: " ++ s :=
  ne_of_head _ _ 'r' 'l' rfl (append_head ("log cause: ") s 'l' rfl) (by decide)

/-- A `ui_print `-prefixed line satisfies `isUiPrintLine`. -/
theorem isUiPrintLine_ui (l : String) : isUiPrintLine ("ui_print " ++ l) = true := by
  unfold isUiPrintLine
  rw [String.data_append,
    List.take_append_of_le_length (show 9 ≤ ("ui_print ").data.length by decide)]
  decide

/-- A `log error:` line is not a `ui_print` line. -/
theorem isUiPrintLine_logError (s : String) :
    isUiPrintLine ("log error: " ++ s) = false := by
  unfold isUiPrintLine
  rw [String.data_append,
    List.take_append_of_le_length (show 9 ≤ ("log error: ").data.length by decide)]
  decide

/-- A `log cause:` line is not a `ui_print` line. -/
theorem isUiPrintLine_logCause (s : String) :
    isUiPrintLine ("log cause: " ++ s) = false := by
  unfold isUiPrintLine
  rw [String.data_append,
    List.take_append_of_le_length (show 9 ≤ ("log cause: ").data.length by decide)]
  decide

/-- The version check passes exactly on the three accepted version strings. -/
theorem versionOk_iff (v : String) :
    versionOk v = true ↔ (v = "1" ∨ v = "2" ∨ v = "3") := by
  rw [string_data_eq, string_data_eq, string_data_eq]
  unfold versionOk
  generalize v.data = l
  rcases l with _ | ⟨c, _ | ⟨c2, rest⟩⟩
  · decide
  · show (c == '1' || c == '2' || c == '3') = true ↔ _
    simp [or_assoc, show ("1" : String).data = [ '1' ] from rfl,
      show ("2" : String).data = [ '2' ] from rfl,
      show ("3" : String).data = [ '3' ] from rfl]
  · show (false = true) ↔ _
    simp [show ("1" : String).data = [ '1' ] from rfl,
      show ("2" : String).data = [ '2' ] from rfl,
      show ("3" : String).data = [ '3' ] from rfl]

/-! ### Line-loop and split lemmas -/

/-- One scan step leaves the error code unchanged unless the line assigns one. -/
theorem scanLine_fst (ec : Int) (l : String) :
    (scanLine ec l).1 = (lineCode l).getD ec := by
  unfold scanLine lineCode
  split
  · cases h : sscanfEd l <;> simp [h]
  · simp

/-- The final error code of the line loop is the last assigned code, or the
initial one when no line assigns. -/
theorem processLines_fst (ec : Int) (ls : List String) :
    (processLines ec ls).1 = (ls.filterMap lineCode).getLastD ec := by
  induction ls generalizing ec with
  | nil => rfl
  | cons l ls ih =>
    show (processLines (scanLine ec l).1 ls).1 = _
    rw [ih, List.filterMap_cons]
    cases h : lineCode l with
    | none => rw [scanLine_fst, h]; rfl
    | some n => rw [scanLine_fst, h, List.getLastD_cons]; rfl

/-- The line loop emits exactly one `ui_print` line per line, in order. -/
theorem processLines_msgs (ec : Int) (ls : List String) :
    (processLines ec ls).2.1 = ls.map (fun l => "ui_print " ++ l) := by
  induction ls generalizing ec with
  | nil => rfl
  | cons l ls ih =>
    show ("ui_print " ++ l) :: (processLines (scanLine ec l).1 ls).2.1 = _
    rw [ih]
    rfl

/-- Splitting always yields at least one piece. -/
theorem splitLines_ne_nil (cs : List Char) : splitLines cs ≠ [] := by
  induction cs with
  | nil => simp [splitLines]
  | cons c cs ih =>
    unfold splitLines
    split
    · simp
    · cases h : splitLines cs with
      | nil => simp
      | cons l ls => simp [h]

/-- Splitting yields one piece more than the number of newline characters. -/
theorem splitLines_length (cs : List Char) :
    (splitLines cs).length = cs.count '\n' + 1 := by
  induction cs with
  | nil => rfl
  | cons c cs ih =>
    unfold splitLines
    by_cases hc : c = '\n'
    · rw [if_pos hc, hc]
      simp [List.count_cons, ih]
    · rw [if_neg hc]
      cases h : splitLines cs with
      | nil => exact absurd h (splitLines_ne_nil cs)
      | cons l ls =>
        have hcnt : ('\n' : Char) ≠ c := fun hx => hc hx.symm
        simp [List.count_cons, hcnt, ← ih, h]

/-- Splitting a list ending in a newline appends one empty piece. -/
theorem splitLines_concat_newline (cs : List Char) :
    splitLines (cs ++ [ '\n' ]) = splitLines cs ++ [[]] := by
  induction cs with
  | nil => rfl
  | cons c cs ih =>
    show splitLines (c :: (cs ++ [ '\n' ])) = _
    unfold splitLines
    by_cases hc : c = '\n'
    · rw [if_pos hc, if_pos hc, ih]
      rfl
    · rw [if_neg hc, if_neg hc, ih]
      cases h : splitLines cs with
      | nil => exact absurd h (splitLines_ne_nil cs)
      | cons l ls => simp [h]

/-- A list whose last element is `a` is a list with `[a]` appended. -/
theorem getLast_concat_ex {α : Type} (l : List α) (a : α) (h : l.getLast? = some a) :
    ∃ t, l = t ++ [a] := by
  induction l with
  | nil => simp at h
  | cons x xs ih =>
    cases xs with
    | nil =>
      simp [List.getLast?] at h
      exact ⟨[], by rw [h]; rfl⟩
    | cons y ys =>
      rw [List.getLast?_cons_cons] at h
      obtain ⟨t, ht⟩ := ih h
      exact ⟨x :: t, by rw [ht]; rfl⟩

/-- If the text ends in a newline, the last piece of the split is empty. -/
theorem splitLines_getLast (cs : List Char) (h : cs.getLast? = some '\n') :
    (splitLines cs).getLast? = some [] := by
  obtain ⟨t, ht⟩ := getLast_concat_ex cs _ h
  rw [ht, splitLines_concat_newline, List.getLast?_concat]

/-! ### Classifier shape lemmas -/

/-- The classifier's command-pipe lines: abort-message lines, then the
`log error:` line, then the cause block. -/
theorem classifier_channel (st : UState) :
    (classifier st).channel =
      (abortFront st).2.1 ++
        ("log error: " ++ toString (classifier st).error_code) ::
          (causeMsgs st.cause_code).1 := rfl

/-- The classifier's final error code: the line-scan result, with the default
forced to the generic script-failure value. -/
theorem classifier_error_code (st : UState) :
    (classifier st).error_code =
      (if (abortFront st).1 = kNoError then kScriptExecutionFailure
       else (abortFront st).1) := rfl

/-- The abort-message block for an empty message. -/
theorem abortFront_empty (st : UState) (h : st.errmsg = "") :
    abortFront st =
      (st.error_code, ["ui_print script aborted (no error message)"],
        ["script aborted (no error message)"]) := by
  unfold abortFront
  rw [if_pos h]

/-- The abort-message block for a non-empty message is the line loop. -/
theorem abortFront_nonempty (st : UState) (h : st.errmsg ≠ "") :
    abortFront st =
      ((processLines st.error_code (Split st.errmsg)).1,
        (processLines st.error_code (Split st.errmsg)).2.1,
        ("script aborted: " ++ st.errmsg) ::
          (processLines st.error_code (Split st.errmsg)).2.2) := by
  unfold abortFront
  rw [if_neg h]

/-- The `retry_update` line never occurs among the abort-message lines. -/
theorem retry_not_mem_front (st : UState) :
    ("retry_update" : String) ∉ (abortFront st).2.1 := by
  by_cases h : st.errmsg = ""
  · rw [abortFront_empty st h]
    show ("retry_update" : String) ∉ ["ui_print script aborted (no error message)"]
    decide
  · rw [abortFront_nonempty st h]
    show ("retry_update" : String) ∉ (processLines st.error_code (Split st.errmsg)).2.1
    rw [processLines_msgs]
    intro hmem
    obtain ⟨l, _, hl⟩ := List.mem_map.mp hmem
    exact uiPrint_ne_retry l hl

/-- The `retry_update` line occurs in the cause block exactly for the two
retryable cause codes. -/
theorem retry_mem_cause (cc : Int) :
    (("retry_update" : String) ∈ (causeMsgs cc).1) ↔
      (cc = kPatchApplicationFailure ∨ cc = kEioFailure) := by
  unfold causeMsgs
  split_ifs with h1 h2 h3
  · subst h2
    simp
  · subst h3
    simp
  · simp [List.mem_singleton, h2, h3, retry_ne_logCause (toString cc)]
  · push_neg at h1
    subst h1
    decide

/-- A `retry_update` line is emitted by the classifier exactly for the two
retryable cause codes. -/
theorem retry_mem_classifier (st : UState) :
    (("retry_update" : String) ∈ (classifier st).channel) ↔
      (st.cause_code = kPatchApplicationFailure ∨ st.cause_code = kEioFailure) := by
  rw [classifier_channel, List.mem_append, List.mem_cons]
  constructor
  · rintro (h | h | h)
    · exact absurd h (retry_not_mem_front st)
    · exact absurd h (retry_ne_logError _)
    · exact (retry_mem_cause _).1 h
  · intro h
    exact Or.inr (Or.inr ((retry_mem_cause _).2 h))

/-- The `retry_update` line itself is not a `ui_print` line. -/
theorem isUiPrintLine_retry : isUiPrintLine ("retry_update") = false := by decide

/-- The `log error:`/`log cause:`/`retry_update` block contains no `ui_print`
line. -/
theorem tail_no_ui (ec cc : Int) :
    (("log error: " ++ toString ec) :: (causeMsgs cc).1).filter isUiPrintLine
      = [] := by
  unfold causeMsgs
  split_ifs with h1 h2 h3 <;>
    simp [List.filter, isUiPrintLine_logError, isUiPrintLine_logCause,
      isUiPrintLine_retry]

/-- The `ui_print` lines of the whole classifier output are exactly the
abort-message block lines. -/
theorem classifier_filter_ui (st : UState) :
    (classifier st).channel.filter isUiPrintLine
      = (abortFront st).2.1.filter isUiPrintLine := by
  rw [classifier_channel, List.filter_append, tail_no_ui, List.append_nil]

/-- For a non-empty message, the abort-message block lines are exactly one
`ui_print` line per split line, and all of them are `ui_print` lines. -/
theorem front_ui_nonempty (st : UState) (h : st.errmsg ≠ "") :
    (abortFront st).2.1 = (Split st.errmsg).map (fun l => "ui_print " ++ l) ∧
    (abortFront st).2.1.filter isUiPrintLine = (abortFront st).2.1 := by
  rw [abortFront_nonempty st h]
  dsimp only
  rw [processLines_msgs]
  refine ⟨rfl, ?_⟩
  apply List.filter_eq_self.mpr
  intro a ha
  obtain ⟨l, _, rfl⟩ := List.mem_map.mp ha
  exact isUiPrintLine_ui l

/-- Split length at the string level. -/
theorem Split_length (s : String) :
    (Split s).length = s.data.count '\n' + 1 := by
  unfold Split
  rw [List.length_map, splitLines_length]

/-- Split of a string ending in a newline ends with the empty string. -/
theorem Split_getLast (s : String) (h : s.data.getLast? = some '\n') :
    (Split s).getLast? = some "" := by
  unfold Split
  rw [List.getLast?_map, splitLines_getLast _ h]
  rfl

/-! ### Run-reduction lemmas -/

/-- A run whose evaluation fails reduces to the classifier output. -/
theorem updaterMain_eval_fail (env : Env) (argv : List String)
    (h45 : argv.length = 4 ∨ argv.length = 5)
    (hv : versionOk (argv.getD 1 "") = true)
    (hfd : env.fdopenOk = true) (hm : env.mapOk = true)
    (ho : env.openErr = 0) (hf : env.findErr = 0) (hx : env.extractErr = 0)
    (hp : env.parseError = 0) (hpc : env.parseErrorCount = 0)
    (hs : (env.evaluate (initState env argv)).status = false) :
    updaterMain env argv = Outcome.exited 7 true
      ((if env.sehandleOk = false then ["ui_print Warning: No file_contexts"]
          else []) ++ (classifier (postState env argv)).channel)
      ((if argv.length = 5 ∧ argv.getD 4 "" ≠ "retry"
          then ["unexpected argument: " ++ argv.getD 4 ""] else []) ++
        (classifier (postState env argv)).logs) 1 := by
  have h1 : ¬(argv.length ≠ 4 ∧ argv.length ≠ 5) := by
    rcases h45 with h | h <;> simp [h]
  have h2 : ¬(versionOk (argv.getD 1 "") = false) := by rw [hv]; simp
  have h3 : ¬(env.fdopenOk = false) := by simp [hfd]
  have h4 : ¬(env.mapOk = false) := by simp [hm]
  have h5 : ¬(env.openErr ≠ 0) := by simp [ho]
  have h6 : ¬(env.findErr ≠ 0) := by simp [hf]
  have h7 : ¬(env.extractErr ≠ 0) := by simp [hx]
  have h8 : ¬(env.parseError ≠ 0 ∨ 0 < env.parseErrorCount) := by simp [hp, hpc]
  unfold updaterMain
  rw [if_neg h1, if_neg h2, if_neg h3, if_neg h4, if_neg h5, if_neg h6, if_neg h7,
    if_neg h8]
  show (if (env.evaluate (initState env argv)).status = false then _ else _) = _
  rw [if_pos hs]

/-- A run whose evaluation succeeds reduces to the single success line. -/
theorem updaterMain_eval_ok (env : Env) (argv : List String)
    (h45 : argv.length = 4 ∨ argv.length = 5)
    (hv : versionOk (argv.getD 1 "") = true)
    (hfd : env.fdopenOk = true) (hm : env.mapOk = true)
    (ho : env.openErr = 0) (hf : env.findErr = 0) (hx : env.extractErr = 0)
    (hp : env.parseError = 0) (hpc : env.parseErrorCount = 0)
    (hs : (env.evaluate (initState env argv)).status = true) :
    updaterMain env argv = Outcome.exited 0 true
      ((if env.sehandleOk = false then ["ui_print Warning: No file_contexts"]
          else []) ++
        ["ui_print script succeeded: result was [" ++
          (env.evaluate (initState env argv)).result ++ "]"])
      (if argv.length = 5 ∧ argv.getD 4 "" ≠ "retry"
        then ["unexpected argument: " ++ argv.getD 4 ""] else []) 1 := by
  have h1 : ¬(argv.length ≠ 4 ∧ argv.length ≠ 5) := by
    rcases h45 with h | h <;> simp [h]
  have h2 : ¬(versionOk (argv.getD 1 "") = false) := by rw [hv]; simp
  have h3 : ¬(env.fdopenOk = false) := by simp [hfd]
  have h4 : ¬(env.mapOk = false) := by simp [hm]
  have h5 : ¬(env.openErr ≠ 0) := by simp [ho]
  have h6 : ¬(env.findErr ≠ 0) := by simp [hf]
  have h7 : ¬(env.extractErr ≠ 0) := by simp [hx]
  have h8 : ¬(env.parseError ≠ 0 ∨ 0 < env.parseErrorCount) := by simp [hp, hpc]
  unfold updaterMain
  rw [if_neg h1, if_neg h2, if_neg h3, if_neg h4, if_neg h5, if_neg h6, if_neg h7,
    if_neg h8]
  show (if (env.evaluate (initState env argv)).status = false then _ else _) = _
  rw [if_neg (by simp [hs])]

/-! ### Scan-pattern lemmas -/

/-- A digit is not a `scanf` whitespace character. -/
theorem digit_not_scanfSpace (c : Char) (h : c.isDigit = true) :
    isScanfSpace c = false := by
  by_contra hs
  rw [Bool.not_eq_false] at hs
  unfold isScanfSpace at hs
  simp only [Bool.or_eq_true, beq_iff_eq] at hs
  rcases hs with ((((h1 | h1) | h1) | h1) | h1) | h1 <;> subst h1 <;>
    exact absurd h (by decide)

/-- A digit is not a sign character. -/
theorem digit_ne_sign (c : Char) (h : c.isDigit = true) :
    c ≠ '-' ∧ c ≠ '+' := by
  constructor <;> intro hc <;> subst hc <;> exact absurd h (by decide)

/-- Every line matching the spec's `E<digits>: ` pattern is accepted by the
code's scan, with the same parsed integer. -/
theorem specPattern_implies_lineCode (l : String) (n : Int)
    (h : specPatternEDigits l = some n) : lineCode l = some n := by
  unfold specPatternEDigits at h
  split at h
  · rename_i rest heq
    by_cases hnil : (takeDigits rest).1 = []
    · rw [if_pos hnil] at h
      exact absurd h (by simp)
    · rw [if_neg hnil] at h
      unfold lineCode sscanfEd
      rw [heq, if_pos (show ('E' :: rest).head? = some 'E' from rfl)]
      show (match rest.dropWhile isScanfSpace with
        | '-' :: r2 =>
          let p := takeDigits r2
          if p.1 = [] then none else some (-(digitsToNat p.1 : Int))
        | '+' :: r2 =>
          let p := takeDigits r2
          if p.1 = [] then none else some ((digitsToNat p.1 : Int))
        | r2 =>
          let p := takeDigits r2
          if p.1 = [] then none else some ((digitsToNat p.1 : Int))) = some n
      rcases rest with _ | ⟨c, cs⟩
      · simp [takeDigits] at hnil
      · by_cases hdig : c.isDigit
        · have hdrop : (c :: cs).dropWhile isScanfSpace = c :: cs := by
            rw [List.dropWhile_cons, digit_not_scanfSpace c hdig]
            simp
          rw [hdrop]
          split
          · rename_i r2 heq2
            injection heq2 with hch _
            exact absurd hch (digit_ne_sign c hdig).1
          · rename_i r2 heq2
            injection heq2 with hch _
            exact absurd hch (digit_ne_sign c hdig).2
          · show (if (takeDigits (c :: cs)).1 = [] then none
                else some ((digitsToNat (takeDigits (c :: cs)).1 : Int))) = some n
            rw [if_neg hnil]
            split at h
            · exact h
            · exact absurd h (by simp)
        · simp [takeDigits, hdig] at hnil
  · exact absurd h (by simp)

/-! ### Concrete contexts for witnesses and counterexamples -/

/-- The spec's example abort message. -/
def abortMsgC1 : String := "E30: unsupported device\nE40: ignored"

/-- Post-evaluation context carrying the example abort message, with arbitrary
surrounding fields. -/
def stC1 (sc v : String) (ec cc : Int) (b : Bool) : UState :=
  { script := sc, version := v, errmsg := abortMsgC1, error_code := ec,
    cause_code := cc, is_retry := b }

/-- Post-evaluation context for the example abort message with
default-initialised codes. -/
def stExample : UState := stC1 "" "3" kNoError kNoCause false

/-- Post-evaluation context with a single abort line that begins with `E` and
fails the spec's pattern, yet carries a `scanf`-readable integer. -/
def stSpace : UState :=
  { script := "", version := "3", errmsg := "E 42", error_code := kNoError,
    cause_code := kNoCause, is_retry := false }

/-- Post-evaluation context with an empty abort message. -/
def stEmpty : UState :=
  { script := "", version := "3", errmsg := "", error_code := kNoError,
    cause_code := kNoCause, is_retry := false }

/-- Post-evaluation context whose abort message ends in a newline. -/
def stNewline : UState :=
  { script := "", version := "3", errmsg := "abc\n", error_code := kNoError,
    cause_code := kNoCause, is_retry := false }

/-! ### Claim C1 -/

/-- Claim C1, counterexample: on the abort message
`"E30: unsupported device\nE40: ignored"` the classifier's final errorCode is
40, not 30 as claimed — the second line `E40: ignored` also matches the scan
and, the last match winning, overwrites the 30. -/
theorem C1_counterexample :
    (classifier stExample).error_code = 40 ∧ ((40 : Int) = 30 → False) ∧
    (classifier stExample).channel.filter isUiPrintLine =
      ["ui_print E30: unsupported device", "ui_print E40: ignored"] := by
  refine ⟨by decide, by decide, by decide⟩

/-- Claim C1 (amended): for the abort message
`"E30: unsupported device\nE40: ignored"`, whatever codes and retry flag the
evaluator left in the context, the classifier ends with errorCode equal to 40
(the last matching line wins) and emits exactly two `ui_print` lines on the
command channel, preserving the original order and content of the two message
lines. -/
theorem C1_theorem (sc v : String) (ec cc : Int) (b : Bool) :
    (classifier (stC1 sc v ec cc b)).error_code = 40 ∧
    (classifier (stC1 sc v ec cc b)).channel.filter isUiPrintLine =
      ["ui_print E30: unsupported device", "ui_print E40: ignored"] := by
  have hne : (stC1 sc v ec cc b).errmsg ≠ "" := by
    show abortMsgC1 ≠ ""
    decide
  constructor
  · rw [classifier_error_code, abortFront_nonempty _ hne]
    show (if (processLines ec (Split abortMsgC1)).1 = kNoError
        then kScriptExecutionFailure
        else (processLines ec (Split abortMsgC1)).1) = 40
    have h40 : (processLines ec (Split abortMsgC1)).1 = 40 := by
      rw [processLines_fst]
      rfl
    rw [h40]
    decide
  · rw [classifier_filter_ui, (front_ui_nonempty _ hne).2,
      (front_ui_nonempty _ hne).1]
    show (Split abortMsgC1).map (fun l => "ui_print " ++ l) = _
    decide

/-! ### Claim C5 -/

/-- Claim C5, counterexample: the line `E 42` begins with `E` and fails the
spec's `E<digits>: ` pattern, so by the claim the errorCode should be left
unchanged (and the classifier would then force the generic value); the code's
`sscanf` scan, however, skips the space and assigns 42. -/
theorem C5_counterexample :
    specPatternEDigits (stSpace.errmsg) = none ∧
    (stSpace.errmsg).data.head? = some 'E' ∧
    (classifier stSpace).error_code = 42 ∧
    ((42 : Int) = kNoError → False) ∧
    ((42 : Int) = kScriptExecutionFailure → False) := by
  refine ⟨by decide, by decide, by decide, by decide, by decide⟩

/-- Claim C5 (amended): for every non-empty abort message, each
newline-separated line beginning with `E` whose remainder is accepted by the C
`sscanf` scan for `"E%d: "` — optional whitespace, an optional sign, one or
more digits, with no requirement that `: ` follow — sets the context's
errorCode to the parsed integer, overwriting any prior value, so the last
accepted line determines the final errorCode; every line matching the spec's
`E<digits>: ` pattern is accepted with the same integer; a line beginning
with `E` that the scan rejects leaves errorCode unchanged, and processing
continues with all subsequent lines, one `ui_print` line each. -/
theorem C5_theorem (st : UState) (h : st.errmsg ≠ "") :
    (processLines st.error_code (Split st.errmsg)).1
        = ((Split st.errmsg).filterMap lineCode).getLastD st.error_code ∧
    (processLines st.error_code (Split st.errmsg)).2.1
        = (Split st.errmsg).map (fun l => "ui_print " ++ l) ∧
    (∀ l m, specPatternEDigits l = some m → lineCode l = some m) ∧
    (classifier st).error_code =
      (if (processLines st.error_code (Split st.errmsg)).1 = kNoError
        then kScriptExecutionFailure
        else (processLines st.error_code (Split st.errmsg)).1) := by
  refine ⟨processLines_fst _ _, processLines_msgs _ _,
    fun l m hm => specPattern_implies_lineCode l m hm, ?_⟩
  rw [classifier_error_code, abortFront_nonempty st h]

/-- Claim C5, witness: the amended theorem applied to the concrete example
context. -/
theorem C5_witness :
    stExample.errmsg ≠ "" ∧
    ((processLines stExample.error_code (Split stExample.errmsg)).1
        = ((Split stExample.errmsg).filterMap lineCode).getLastD
            stExample.error_code ∧
      (processLines stExample.error_code (Split stExample.errmsg)).2.1
        = (Split stExample.errmsg).map (fun l => "ui_print " ++ l) ∧
      (∀ l m, specPatternEDigits l = some m → lineCode l = some m) ∧
      (classifier stExample).error_code =
        (if (processLines stExample.error_code (Split stExample.errmsg)).1
            = kNoError
          then kScriptExecutionFailure
          else (processLines stExample.error_code (Split stExample.errmsg)).1)) :=
  ⟨by decide, C5_theorem stExample (by decide)⟩

/-! ### Claim C6 -/

/-- Claim C6: for an empty abort message, the only `ui_print` line emitted on
the command channel is exactly `script aborted (no error message)`; when the
context still carries the default `kNoError`, the reported errorCode is forced
to `kScriptExecutionFailure`; the reported errorCode is never `kNoError`; and
the `log error:` line carrying it is on the channel. -/
theorem C6_theorem (st : UState) (h : st.errmsg = "") :
    (classifier st).channel.filter isUiPrintLine
        = ["ui_print script aborted (no error message)"] ∧
    (st.error_code = kNoError →
      (classifier st).error_code = kScriptExecutionFailure) ∧
    ((classifier st).error_code = kNoError → False) ∧
    ("log error: " ++ toString (classifier st).error_code) ∈
      (classifier st).channel := by
  refine ⟨?_, ?_, ?_, ?_⟩
  · rw [classifier_filter_ui, abortFront_empty st h]
    show List.filter isUiPrintLine
        ["ui_print script aborted (no error message)"] = _
    decide
  · intro he
    rw [classifier_error_code, abortFront_empty st h]
    show (if st.error_code = kNoError then kScriptExecutionFailure
        else st.error_code) = _
    rw [if_pos he]
  · intro hbad
    rw [classifier_error_code] at hbad
    by_cases hec : (abortFront st).1 = kNoError
    · rw [if_pos hec] at hbad
      exact absurd hbad (by decide)
    · rw [if_neg hec] at hbad
      exact hec hbad
  · rw [classifier_channel]
    exact List.mem_append.mpr (Or.inr (List.mem_cons_self _ _))

/-- Claim C6, witness: the theorem applied to the concrete empty-message
context. -/
theorem C6_witness :
    stEmpty.errmsg = "" ∧
    ((classifier stEmpty).channel.filter isUiPrintLine
        = ["ui_print script aborted (no error message)"] ∧
      (stEmpty.error_code = kNoError →
        (classifier stEmpty).error_code = kScriptExecutionFailure) ∧
      ((classifier stEmpty).error_code = kNoError → False) ∧
      ("log error: " ++ toString (classifier stEmpty).error_code) ∈
        (classifier stEmpty).channel) :=
  ⟨rfl, C6_theorem stEmpty rfl⟩

/-! ### Claim C10 -/

/-- Claim C10: on the failure path with a non-empty abort message, the number
of `ui_print` lines emitted equals the number of newline characters in the
message plus one; a message ending in a newline makes the final `ui_print`
line the empty one, `ui_print ` with no text. -/
theorem C10_theorem (st : UState) (h : st.errmsg ≠ "") :
    (classifier st).channel.countP isUiPrintLine
        = st.errmsg.data.count '\n' + 1 ∧
    (st.errmsg.data.getLast? = some '\n' →
      ((classifier st).channel.filter isUiPrintLine).getLast?
        = some ("ui_print ")) := by
  have hfilter : (classifier st).channel.filter isUiPrintLine
      = (Split st.errmsg).map (fun l => "ui_print " ++ l) := by
    rw [classifier_filter_ui, (front_ui_nonempty st h).2,
      (front_ui_nonempty st h).1]
  constructor
  · rw [List.countP_eq_length_filter, hfilter, List.length_map, Split_length]
  · intro hend
    rw [hfilter, List.getLast?_map, Split_getLast st.errmsg hend]
    decide

/-- Claim C10, witness: the theorem applied to a message ending in a newline. -/
theorem C10_witness :
    stNewline.errmsg ≠ "" ∧
    ((classifier stNewline).channel.countP isUiPrintLine
        = stNewline.errmsg.data.count '\n' + 1 ∧
      (stNewline.errmsg.data.getLast? = some '\n' →
        ((classifier stNewline).channel.filter isUiPrintLine).getLast?
          = some ("ui_print "))) :=
  ⟨by decide, C10_theorem stNewline (by decide)⟩

/-! ### Concrete environments -/

/-- Baseline all-successful environment whose evaluation succeeds with result
`OK`. -/
def envOk : Env :=
  { fdopenOk := true, mapOk := true, openErr := 0, findErr := 0, extractErr := 0,
    parseError := 0, parseErrorCount := 0, sehandleOk := true, scriptText := "",
    evaluate := fun _ =>
      { status := true, result := "OK", errmsg := "", error_code := kNoError,
        cause_code := kNoCause } }

/-- A standard four-argument invocation. -/
def argvStd : List String := ["updater", "3", "4", "/tmp/update.zip"]

/-- Environment whose evaluation aborts with a patch-application cause. -/
def envPatchFail : Env :=
  { envOk with evaluate := fun _ =>
      { status := false, result := "", errmsg := "E30: patch failed",
        error_code := kNoError, cause_code := kPatchApplicationFailure } }

/-- Environment without a file-contexts label handle. -/
def envNoContexts : Env := { envOk with sehandleOk := false }

/-- Environment in which `fdopen` on the command descriptor fails. -/
def envNoPipe : Env := { envOk with fdopenOk := false }

/-- Environment in which the script entry is missing from the archive. -/
def envNoScript : Env := { envOk with findErr := -5 }

/-! ### Claim C2 -/

/-- Claim C2: on a failed evaluation, a `retry_update` line is emitted on the
command channel if and only if the evaluator's cause code is
`kPatchApplicationFailure` or `kEioFailure`; for every other value, the unset
default included, none is emitted. -/
theorem C2_theorem (env : Env) (argv : List String)
    (h45 : argv.length = 4 ∨ argv.length = 5)
    (hv : versionOk (argv.getD 1 "") = true)
    (hfd : env.fdopenOk = true) (hm : env.mapOk = true)
    (ho : env.openErr = 0) (hf : env.findErr = 0) (hx : env.extractErr = 0)
    (hp : env.parseError = 0) (hpc : env.parseErrorCount = 0)
    (hs : (env.evaluate (initState env argv)).status = false) :
    (("retry_update" : String) ∈ (updaterMain env argv).channel) ↔
      ((env.evaluate (initState env argv)).cause_code = kPatchApplicationFailure ∨
        (env.evaluate (initState env argv)).cause_code = kEioFailure) := by
  rw [updaterMain_eval_fail env argv h45 hv hfd hm ho hf hx hp hpc hs]
  show ("retry_update" : String) ∈
      (if env.sehandleOk = false then ["ui_print Warning: No file_contexts"]
        else []) ++ (classifier (postState env argv)).channel ↔ _
  rw [List.mem_append]
  have hwarn : ("retry_update" : String) ∉
      (if env.sehandleOk = false then ["ui_print Warning: No file_contexts"]
        else []) := by
    split <;> decide
  constructor
  · rintro (hmem | hmem)
    · exact absurd hmem hwarn
    · exact (retry_mem_classifier _).1 hmem
  · intro hc
    exact Or.inr ((retry_mem_classifier _).2 hc)

/-- Claim C2, witness: the theorem applied to a run whose evaluation fails
with the patch-application cause code. -/
theorem C2_witness :
    (envPatchFail.evaluate (initState envPatchFail argvStd)).status = false ∧
    ((("retry_update" : String) ∈ (updaterMain envPatchFail argvStd).channel) ↔
      ((envPatchFail.evaluate (initState envPatchFail argvStd)).cause_code
          = kPatchApplicationFailure ∨
        (envPatchFail.evaluate (initState envPatchFail argvStd)).cause_code
          = kEioFailure)) :=
  ⟨rfl, C2_theorem envPatchFail argvStd (Or.inl rfl) (by decide) rfl rfl rfl rfl
    rfl rfl rfl rfl⟩

/-! ### Claim C3 -/

/-- Claim C3, counterexample: when `fdopen` fails, the run does not exit with
any exit code at all — the source performs no check and uses the null stream,
reaching undefined behaviour — so "fatal with a distinct exit code" is false;
no message is sent over the channel, which is the part of the claim that
holds. -/
theorem C3_counterexample :
    updaterMain envNoPipe argvStd = Outcome.nullPipeUB [] [] 0 ∧
    (updaterMain envNoPipe argvStd).isExit = false ∧
    (updaterMain envNoPipe argvStd).exitCode = none ∧
    (updaterMain envNoPipe argvStd).channel = [] :=
  ⟨rfl, rfl, rfl, rfl⟩

/-- Claim C3 (amended): if opening the command channel from the given pipe
descriptor fails, no message is ever sent to the parent over the channel, but
the invocation is not fatal with a distinct exit code: the source never checks
the result of `fdopen` and immediately uses the null stream, reaching
undefined behaviour with nothing emitted and no archive touched. -/
theorem C3_theorem (env : Env) (argv : List String)
    (h45 : argv.length = 4 ∨ argv.length = 5)
    (hv : versionOk (argv.getD 1 "") = true)
    (hfd : env.fdopenOk = false) :
    updaterMain env argv = Outcome.nullPipeUB [] [] 0 := by
  have h1 : ¬(argv.length ≠ 4 ∧ argv.length ≠ 5) := by
    rcases h45 with h | h <;> simp [h]
  have h2 : ¬(versionOk (argv.getD 1 "") = false) := by rw [hv]; simp
  unfold updaterMain
  rw [if_neg h1, if_neg h2, if_pos hfd]

/-- Claim C3, witness: the amended theorem applied to a concrete failing
`fdopen`. -/
theorem C3_witness :
    envNoPipe.fdopenOk = false ∧
    updaterMain envNoPipe argvStd = Outcome.nullPipeUB [] [] 0 :=
  ⟨rfl, C3_theorem envNoPipe argvStd (Or.inl rfl) (by decide) rfl⟩

/-! ### Claim C4 -/

/-- Claim C4: on every exit path after the archive is opened — script not
found, extraction failure, parse failure, evaluation failure, and success —
the archive handle is closed exactly once. -/
theorem C4_theorem (env : Env) (argv : List String)
    (h45 : argv.length = 4 ∨ argv.length = 5)
    (hv : versionOk (argv.getD 1 "") = true)
    (hfd : env.fdopenOk = true) (hm : env.mapOk = true) (ho : env.openErr = 0) :
    (updaterMain env argv).closes = 1 := by
  have h1 : ¬(argv.length ≠ 4 ∧ argv.length ≠ 5) := by
    rcases h45 with h | h <;> simp [h]
  have h2 : ¬(versionOk (argv.getD 1 "") = false) := by rw [hv]; simp
  have h3 : ¬(env.fdopenOk = false) := by simp [hfd]
  have h4 : ¬(env.mapOk = false) := by simp [hm]
  have h5 : ¬(env.openErr ≠ 0) := by simp [ho]
  unfold updaterMain
  rw [if_neg h1, if_neg h2, if_neg h3, if_neg h4, if_neg h5]
  split_ifs <;>
    first
      | rfl
      | (cases hst : (env.evaluate (initState env argv)).status <;>
          simp [hst, Outcome.closes])

/-- Claim C4, witness: the theorem applied to a run that fails at the
script-lookup step. -/
theorem C4_witness :
    envNoScript.openErr = 0 ∧ (updaterMain envNoScript argvStd).closes = 1 :=
  ⟨rfl, C4_theorem envNoScript argvStd (Or.inl rfl) (by decide) rfl rfl rfl⟩

/-! ### Claim C7 -/

/-- Claim C7, counterexample: when the file-contexts handle is unavailable, a
successful `OK` evaluation emits two command-channel lines, not exactly one:
the `Warning: No file_contexts` line precedes the success line. -/
theorem C7_counterexample :
    (updaterMain envNoContexts argvStd).channel =
      ["ui_print Warning: No file_contexts",
        "ui_print script succeeded: result was [OK]"] ∧
    ((updaterMain envNoContexts argvStd).channel.length = 1 → False) ∧
    (updaterMain envNoContexts argvStd).exitCode = some 0 ∧
    (updaterMain envNoContexts argvStd).closes = 1 :=
  ⟨rfl, by decide, rfl, rfl⟩

/-- Claim C7 (amended): for every run whose evaluation succeeds with result
string `OK`, provided the SELinux file-contexts handle is available, the
process emits exactly one command-channel line,
`ui_print script succeeded: result was [OK]`, closes the archive handle
exactly once, and exits with code 0; when the handle is unavailable, the
warning line `ui_print Warning: No file_contexts` additionally precedes the
success line. -/
theorem C7_theorem (env : Env) (argv : List String)
    (h45 : argv.length = 4 ∨ argv.length = 5)
    (hv : versionOk (argv.getD 1 "") = true)
    (hfd : env.fdopenOk = true) (hm : env.mapOk = true)
    (ho : env.openErr = 0) (hf : env.findErr = 0) (hx : env.extractErr = 0)
    (hp : env.parseError = 0) (hpc : env.parseErrorCount = 0)
    (hse : env.sehandleOk = true)
    (hst : (env.evaluate (initState env argv)).status = true)
    (hres : (env.evaluate (initState env argv)).result = "OK") :
    (updaterMain env argv).channel
        = ["ui_print script succeeded: result was [OK]"] ∧
    (updaterMain env argv).exitCode = some 0 ∧
    (updaterMain env argv).closes = 1 := by
  rw [updaterMain_eval_ok env argv h45 hv hfd hm ho hf hx hp hpc hst]
  refine ⟨?_, rfl, rfl⟩
  show (if env.sehandleOk = false then ["ui_print Warning: No file_contexts"]
      else []) ++
      ["ui_print script succeeded: result was [" ++
        (env.evaluate (initState env argv)).result ++ "]"] = _
  rw [if_neg (by rw [hse]; simp), hres]
  decide

/-- Claim C7, witness: the amended theorem applied to the baseline successful
run. -/
theorem C7_witness :
    envOk.sehandleOk = true ∧
    (envOk.evaluate (initState envOk argvStd)).result = "OK" ∧
    ((updaterMain envOk argvStd).channel
        = ["ui_print script succeeded: result was [OK]"] ∧
      (updaterMain envOk argvStd).exitCode = some 0 ∧
      (updaterMain envOk argvStd).closes = 1) :=
  ⟨rfl, rfl, C7_theorem envOk argvStd (Or.inl rfl) (by decide) rfl rfl rfl rfl
    rfl rfl rfl rfl rfl rfl⟩

/-! ### Claim C8 -/

/-- Claim C8: for every argument count outside {4, 5} the process exits with
code 1 with the channel unopened and no resource touched; and, the count being
acceptable, every first argument that is not exactly one character from
{'1','2','3'} — longer strings such as `10` included — exits with code 2,
likewise before the channel is opened. -/
theorem C8_theorem :
    (∀ (env : Env) (argv : List String), argv.length ≠ 4 → argv.length ≠ 5 →
      updaterMain env argv = Outcome.exited 1 false []
        (["unexpected number of arguments: " ++ toString argv.length]) 0) ∧
    (∀ (env : Env) (argv : List String), (argv.length = 4 ∨ argv.length = 5) →
      ¬(argv.getD 1 "" = "1" ∨ argv.getD 1 "" = "2" ∨ argv.getD 1 "" = "3") →
      updaterMain env argv = Outcome.exited 2 false []
        (["wrong updater binary API; expected 1, 2, or 3; got " ++
          argv.getD 1 ""]) 0) := by
  constructor
  · intro env argv h4 h5
    unfold updaterMain
    rw [if_pos ⟨h4, h5⟩]
  · intro env argv h45 hv
    have h1 : ¬(argv.length ≠ 4 ∧ argv.length ≠ 5) := by
      rcases h45 with h | h <;> simp [h]
    have h2 : versionOk (argv.getD 1 "") = false := by
      cases hb : versionOk (argv.getD 1 "") with
      | false => rfl
      | true => exact absurd ((versionOk_iff _).1 hb) hv
    unfold updaterMain
    rw [if_neg h1, if_pos h2]

/-- Claim C8, witness: both parts applied to concrete bad invocations — a
two-argument call and a call with version string `10`. -/
theorem C8_witness :
    updaterMain envOk ["updater", "3"] = Outcome.exited 1 false []
      (["unexpected number of arguments: " ++
        toString (["updater", "3"] : List String).length]) 0 ∧
    updaterMain envOk ["updater", "10", "4", "/tmp/update.zip"]
      = Outcome.exited 2 false []
        (["wrong updater binary API; expected 1, 2, or 3; got " ++
          (["updater", "10", "4", "/tmp/update.zip"] : List String).getD 1 ""]) 0 :=
  ⟨C8_theorem.1 envOk _ (by decide) (by decide),
    C8_theorem.2 envOk _ (Or.inl rfl) (by decide)⟩

/-! ### Claim C9 -/

/-- A fifth argument other than `retry` leaves the pre-evaluation context
exactly that of the four-argument invocation. -/
theorem initState_five (env : Env) (a0 a1 a2 a3 x : String) (hx : x ≠ "retry") :
    initState env [a0, a1, a2, a3, x] = initState env [a0, a1, a2, a3] := by
  unfold initState
  simp [hx]

/-- So does the post-evaluation context. -/
theorem postState_five (env : Env) (a0 a1 a2 a3 x : String) (hx : x ≠ "retry") :
    postState env [a0, a1, a2, a3, x] = postState env [a0, a1, a2, a3] := by
  unfold postState
  rw [initState_five env a0 a1 a2 a3 x hx]

/-- A five-argument run with an unrecognized fifth argument either equals the
four-argument run outright (all pre-evaluation exits), or reaches evaluation
and differs from it exactly by the `unexpected argument` diagnostic log
line. -/
theorem updaterMain_five (env : Env) (a0 a1 a2 a3 x : String) (hx : x ≠ "retry") :
    updaterMain env [a0, a1, a2, a3, x] = updaterMain env [a0, a1, a2, a3] ∨
    (∃ code oc ch lg cl,
      updaterMain env [a0, a1, a2, a3] = Outcome.exited code oc ch lg cl ∧
      updaterMain env [a0, a1, a2, a3, x]
        = Outcome.exited code oc ch (("unexpected argument: " ++ x) :: lg) cl) := by
  unfold updaterMain
  rw [show [a0, a1, a2, a3, x].getD 1 "" = a1 from rfl,
    show [a0, a1, a2, a3].getD 1 "" = a1 from rfl,
    show [a0, a1, a2, a3, x].getD 3 "" = a3 from rfl,
    show [a0, a1, a2, a3].getD 3 "" = a3 from rfl,
    show [a0, a1, a2, a3, x].getD 4 "" = x from rfl,
    show [a0, a1, a2, a3].getD 4 "" = ("" : String) from rfl,
    show [a0, a1, a2, a3, x].length = 5 from rfl,
    show [a0, a1, a2, a3].length = 4 from rfl]
  rw [if_neg (show ¬((5 : Nat) ≠ 4 ∧ (5 : Nat) ≠ 5) by decide),
    if_neg (show ¬((4 : Nat) ≠ 4 ∧ (4 : Nat) ≠ 5) by decide)]
  by_cases hv : versionOk a1 = false
  · rw [if_pos hv, if_pos hv]
    exact Or.inl rfl
  · rw [if_neg hv, if_neg hv]
    by_cases hfd : env.fdopenOk = false
    · rw [if_pos hfd, if_pos hfd]
      exact Or.inl rfl
    · rw [if_neg hfd, if_neg hfd]
      by_cases hm : env.mapOk = false
      · rw [if_pos hm, if_pos hm]
        exact Or.inl rfl
      · rw [if_neg hm, if_neg hm]
        by_cases ho : env.openErr ≠ 0
        · rw [if_pos ho, if_pos ho]
          exact Or.inl rfl
        · rw [if_neg ho, if_neg ho]
          by_cases hf : env.findErr ≠ 0
          · rw [if_pos hf, if_pos hf]
            exact Or.inl rfl
          · rw [if_neg hf, if_neg hf]
            by_cases hex : env.extractErr ≠ 0
            · rw [if_pos hex, if_pos hex]
              exact Or.inl rfl
            · rw [if_neg hex, if_neg hex]
              by_cases hp : env.parseError ≠ 0 ∨ 0 < env.parseErrorCount
              · rw [if_pos hp, if_pos hp]
                exact Or.inl rfl
              · rw [if_neg hp, if_neg hp]
                rw [initState_five env a0 a1 a2 a3 x hx,
                  postState_five env a0 a1 a2 a3 x hx]
                dsimp only
                rw [if_pos (show (5 : Nat) = 5 ∧ x ≠ "retry" from ⟨rfl, hx⟩),
                  if_neg (show ¬((4 : Nat) = 5 ∧ ("" : String) ≠ "retry") from
                    fun hc => absurd hc.1 (by decide))]
                by_cases hst :
                    (env.evaluate (initState env [a0, a1, a2, a3])).status = false
                · rw [if_pos hst, if_pos hst]
                  exact Or.inr ⟨7, true, _, _, 1, rfl, rfl⟩
                · rw [if_neg hst, if_neg hst]
                  exact Or.inr ⟨0, true, _, _, 1, rfl, rfl⟩

/-- Claim C9: when a fifth argument is present and is not the literal `retry`,
the retry flag in the execution context remains false and the whole
pre-evaluation context equals that of the four-argument invocation; the run's
command-channel lines, exit behaviour and archive closes are identical, and
the only difference is the single `unexpected argument` diagnostic log line on
runs that reach evaluation. -/
theorem C9_theorem (env : Env) (a : List String) (x : String)
    (h4 : a.length = 4) (hx : x ≠ "retry") :
    initState env (a ++ [x]) = initState env a ∧
    (initState env (a ++ [x])).is_retry = false ∧
    (updaterMain env (a ++ [x])).channel = (updaterMain env a).channel ∧
    (updaterMain env (a ++ [x])).isExit = (updaterMain env a).isExit ∧
    (updaterMain env (a ++ [x])).exitCode = (updaterMain env a).exitCode ∧
    (updaterMain env (a ++ [x])).closes = (updaterMain env a).closes ∧
    ((updaterMain env (a ++ [x])).logs = (updaterMain env a).logs ∨
      (updaterMain env (a ++ [x])).logs
        = ("unexpected argument: " ++ x) :: (updaterMain env a).logs) := by
  obtain ⟨a0, a1, a2, a3, rfl⟩ : ∃ b0 b1 b2 b3, a = [b0, b1, b2, b3] := by
    rcases a with _ | ⟨b0, _ | ⟨b1, _ | ⟨b2, _ | ⟨b3, _ | ⟨b4, t⟩⟩⟩⟩⟩
    · simp at h4
    · simp at h4
    · simp at h4
    · simp at h4
    · exact ⟨b0, b1, b2, b3, rfl⟩
    · rw [List.length_cons, List.length_cons, List.length_cons,
        List.length_cons, List.length_cons] at h4
      omega
  have happ : [a0, a1, a2, a3] ++ [x] = [a0, a1, a2, a3, x] := rfl
  rw [happ]
  refine ⟨initState_five env a0 a1 a2 a3 x hx, ?_, ?_⟩
  · rw [initState_five env a0 a1 a2 a3 x hx]
    rfl
  · rcases updaterMain_five env a0 a1 a2 a3 x hx with heq |
      ⟨code, oc, ch, lg, cl, h4r, h5r⟩
    · rw [heq]
      exact ⟨rfl, rfl, rfl, rfl, Or.inl rfl⟩
    · rw [h4r, h5r]
      exact ⟨rfl, rfl, rfl, rfl, Or.inr rfl⟩

/-- Claim C9, witness: the theorem applied to a concrete run with fifth
argument `bogus`. -/
theorem C9_witness :
    argvStd.length = 4 ∧ ("bogus" : String) ≠ "retry" ∧
    ((updaterMain envOk (argvStd ++ ["bogus"])).channel
        = (updaterMain envOk argvStd).channel ∧
      ((updaterMain envOk (argvStd ++ ["bogus"])).logs
          = (updaterMain envOk argvStd).logs ∨
        (updaterMain envOk (argvStd ++ ["bogus"])).logs
          = ("unexpected argument: " ++ "bogus")
              :: (updaterMain envOk argvStd).logs)) :=
  ⟨rfl, by decide,
    (C9_theorem envOk argvStd ("bogus") rfl (by decide)).2.2.1,
    (C9_theorem envOk argvStd ("bogus") rfl (by decide)).2.2.2.2.2.2⟩
